import Mathlib

/-!
Verification of hphp/runtime/base/attr.h: the 32-bit attribute register
(`enum Attr`), its named flag constants, the combination operator
(`operator|` / `operator|=`), the mutation primitive `attrSetter`, the
`VisibilityAttrs` mask and the visibility decoder `attrToVisibilityStr`.

The register is modelled as a natural number carrying the 32-bit pattern;
bitwise operations are `Nat.lor` / `Nat.land` / `Nat.xor`, and the C++
two's-complement `~what` (on a 32-bit int) is modelled as xor with the
all-ones 32-bit mask.
-/

namespace HPHP

/-- Attr, the attribute register: a 32-bit value treated as a bit set. -/
abbrev Attr := Nat

/-- AttrNone from the catalog: the empty attribute set. -/
def AttrNone : Attr := 0

/-- AttrForbidDynamicProps, bit 0 (class). -/
def AttrForbidDynamicProps : Attr := 1 <<< 0

/-- AttrDeepInit, bit 0 (property). -/
def AttrDeepInit : Attr := 1 <<< 0

/-- AttrPublic, bit 1 (property, method). -/
def AttrPublic : Attr := 1 <<< 1

/-- AttrProtected, bit 2 (property, method). -/
def AttrProtected : Attr := 1 <<< 2

/-- AttrPrivate, bit 3 (property, method). -/
def AttrPrivate : Attr := 1 <<< 3

/-- AttrEnum, bit 4 (class). -/
def AttrEnum : Attr := 1 <<< 4

/-- AttrSystemInitialValue, bit 5 (property). -/
def AttrSystemInitialValue : Attr := 1 <<< 5

/-- AttrNoImplicitNullable, bit 6 (property). -/
def AttrNoImplicitNullable : Attr := 1 <<< 6

/-- AttrStatic, bit 4 (property, method). -/
def AttrStatic : Attr := 1 <<< 4

/-- AttrAbstract, bit 5 (class, method). -/
def AttrAbstract : Attr := 1 <<< 5

/-- AttrFinal, bit 6 (class, method). -/
def AttrFinal : Attr := 1 <<< 6

/-- AttrInterface, bit 7 (class). -/
def AttrInterface : Attr := 1 <<< 7

/-- AttrLSB, bit 7 (property). -/
def AttrLSB : Attr := 1 <<< 7

/-- AttrSupportsAsyncEagerReturn, bit 7 (method). -/
def AttrSupportsAsyncEagerReturn : Attr := 1 <<< 7

/-- AttrTrait, bit 8 (class, property, method). -/
def AttrTrait : Attr := 1 <<< 8

/-- AttrNoInjection, bit 9 (method). -/
def AttrNoInjection : Attr := 1 <<< 9

/-- AttrInitialSatisfiesTC, bit 9 (property). -/
def AttrInitialSatisfiesTC : Attr := 1 <<< 9

/-- AttrUnique, bit 10 (class, method). -/
def AttrUnique : Attr := 1 <<< 10

/-- AttrNoBadRedeclare, bit 10 (property). -/
def AttrNoBadRedeclare : Attr := 1 <<< 10

/-- AttrInterceptable, bit 11 (method). -/
def AttrInterceptable : Attr := 1 <<< 11

/-- AttrSealed, bit 11 (class). -/
def AttrSealed : Attr := 1 <<< 11

/-- AttrLateInit, bit 11 (property). -/
def AttrLateInit : Attr := 1 <<< 11

/-- AttrNoExpandTrait, bit 12 (class). -/
def AttrNoExpandTrait : Attr := 1 <<< 12

/-- AttrNoOverride, bit 13 (class, method). -/
def AttrNoOverride : Attr := 1 <<< 13

/-- AttrPersistent, bit 18 (class, property, method). -/
def AttrPersistent : Attr := 1 <<< 18

/-- AttrDynamicallyCallable, bit 19 (method). -/
def AttrDynamicallyCallable : Attr := 1 <<< 19

/-- AttrDynamicallyConstructible, bit 19 (class). -/
def AttrDynamicallyConstructible : Attr := 1 <<< 19

/-- AttrBuiltin, bit 20 (class, method). -/
def AttrBuiltin : Attr := 1 <<< 20

/-- AttrIsConst, bit 21 (class, property). -/
def AttrIsConst : Attr := 1 <<< 21

/-- AttrNoReifiedInit, bit 23 (class). -/
def AttrNoReifiedInit : Attr := 1 <<< 23

/-- AttrIsMethCaller, bit 24 (method). -/
def AttrIsMethCaller : Attr := 1 <<< 24

/-- AttrIsClosureClass, bit 24 (class). -/
def AttrIsClosureClass : Attr := 1 <<< 24

/-- AttrHasClosureCoeffectsProp, bit 25 (class). -/
def AttrHasClosureCoeffectsProp : Attr := 1 <<< 25

/-- AttrHasCoeffectRules, bit 25 (method). -/
def AttrHasCoeffectRules : Attr := 1 <<< 25

/-- AttrIsReadonly, bit 26 (property). -/
def AttrIsReadonly : Attr := 1 <<< 26

/-- AttrIsFoldable, bit 26 (method). -/
def AttrIsFoldable : Attr := 1 <<< 26

/-- AttrNoFCallBuiltin, bit 27 (method). -/
def AttrNoFCallBuiltin : Attr := 1 <<< 27

/-- AttrVariadicParam, bit 28 (method). -/
def AttrVariadicParam : Attr := 1 <<< 28

/-- AttrProvenanceSkipFrame, bit 29 (method). -/
def AttrProvenanceSkipFrame : Attr := 1 <<< 29

/-- AttrEnumClass, bit 30 (class). -/
def AttrEnumClass : Attr := 1 <<< 30

/-- AttrUnusedMaxAttr, bit 31: reserved sentinel, never carries meaning. -/
def AttrUnusedMaxAttr : Attr := 1 <<< 31

/-- The constexpr operator| on Attr: bitwise union of two registers. -/
def attrOr (a b : Attr) : Attr := a ||| b

/-- Result value of the in-place operator|= on Attr, which replaces its first
operand with the union and returns it. -/
def attrOrAssign (a b : Attr) : Attr := a ||| b

/-- All-ones mask of the 32-bit machine word; xor with it models the C++
bitwise complement of a 32-bit value. -/
def attrWordMask : Nat := 2 ^ 32 - 1

/-- attrSetter from attr.h: if set, OR the flag in; otherwise AND with the
32-bit complement of the flag mask. -/
def attrSetter (attrs : Attr) (set : Bool) (what : Attr) : Attr :=
  if set then attrs ||| what else attrs &&& (attrWordMask ^^^ what)

/-- VisibilityAttrs from attr.h: AttrPublic|AttrProtected|AttrPrivate. -/
def VisibilityAttrs : Attr := attrOr (attrOr AttrPublic AttrProtected) AttrPrivate

/-- attrToVisibilityStr from attr.h: "private" if the AttrPrivate bit is set,
otherwise "protected" if the AttrProtected bit is set, otherwise "public". -/
def attrToVisibilityStr (attr : Attr) : String :=
  if attr &&& AttrPrivate ≠ 0 then "private"
  else if attr &&& AttrProtected ≠ 0 then "protected"
  else "public"

/-- Modelled from the spec: hasFlag(register, flag) returns whether all bits of
the flag's mask are set in the register, AND then compare to the mask. The
header defines no named query function; this is the query the spec and the
consuming structures use. -/
def hasFlag (r f : Attr) : Bool := (r &&& f) == f

/-- One row of the attr.h catalog table: a flag's mask and its
class/property/method applicability columns as marked in the enum comments
(AttrNone is listed under all three kinds). -/
structure AttrRow where
  mask : Attr
  onClass : Bool
  onProp : Bool
  onMethod : Bool

/-- The full catalog of named flag constants of enum Attr, in source order,
with the class/property/method columns of the comment table. -/
def attrCatalog : List AttrRow := [
  ⟨AttrNone, true, true, true⟩,
  ⟨AttrForbidDynamicProps, true, false, false⟩,
  ⟨AttrDeepInit, false, true, false⟩,
  ⟨AttrPublic, false, true, true⟩,
  ⟨AttrProtected, false, true, true⟩,
  ⟨AttrPrivate, false, true, true⟩,
  ⟨AttrEnum, true, false, false⟩,
  ⟨AttrSystemInitialValue, false, true, false⟩,
  ⟨AttrNoImplicitNullable, false, true, false⟩,
  ⟨AttrStatic, false, true, true⟩,
  ⟨AttrAbstract, true, false, true⟩,
  ⟨AttrFinal, true, false, true⟩,
  ⟨AttrInterface, true, false, false⟩,
  ⟨AttrLSB, false, true, false⟩,
  ⟨AttrSupportsAsyncEagerReturn, false, false, true⟩,
  ⟨AttrTrait, true, true, true⟩,
  ⟨AttrNoInjection, false, false, true⟩,
  ⟨AttrInitialSatisfiesTC, false, true, false⟩,
  ⟨AttrUnique, true, false, true⟩,
  ⟨AttrNoBadRedeclare, false, true, false⟩,
  ⟨AttrInterceptable, false, false, true⟩,
  ⟨AttrSealed, true, false, false⟩,
  ⟨AttrLateInit, false, true, false⟩,
  ⟨AttrNoExpandTrait, true, false, false⟩,
  ⟨AttrNoOverride, true, false, true⟩,
  ⟨AttrPersistent, true, true, true⟩,
  ⟨AttrDynamicallyCallable, false, false, true⟩,
  ⟨AttrDynamicallyConstructible, true, false, false⟩,
  ⟨AttrBuiltin, true, false, true⟩,
  ⟨AttrIsConst, true, true, false⟩,
  ⟨AttrNoReifiedInit, true, false, false⟩,
  ⟨AttrIsMethCaller, false, false, true⟩,
  ⟨AttrIsClosureClass, true, false, false⟩,
  ⟨AttrHasClosureCoeffectsProp, true, false, false⟩,
  ⟨AttrHasCoeffectRules, false, false, true⟩,
  ⟨AttrIsReadonly, false, true, false⟩,
  ⟨AttrIsFoldable, false, false, true⟩,
  ⟨AttrNoFCallBuiltin, false, false, true⟩,
  ⟨AttrVariadicParam, false, false, true⟩,
  ⟨AttrProvenanceSkipFrame, false, false, true⟩,
  ⟨AttrEnumClass, true, false, false⟩,
  ⟨AttrUnusedMaxAttr, false, false, false⟩
]

/-- Masks of all named flag constants of the enum, in source order. -/
def enumAttrMasks : List Attr := attrCatalog.map AttrRow.mask

/-- Masks of the flags marked applicable to classes. -/
def classAttrs : List Attr := (attrCatalog.filter AttrRow.onClass).map AttrRow.mask

/-- Masks of the flags marked applicable to properties. -/
def propertyAttrs : List Attr := (attrCatalog.filter AttrRow.onProp).map AttrRow.mask

/-- Masks of the flags marked applicable to methods. -/
def methodAttrs : List Attr := (attrCatalog.filter AttrRow.onMethod).map AttrRow.mask

/-- Flags a register can be queried with: the enum constants together with the
multi-bit VisibilityAttrs mask. -/
def definedFlags : List Attr := enumAttrMasks ++ [VisibilityAttrs]

/-- Querying a single-bit mask reads exactly that bit of the register. -/
lemma hasFlag_two_pow (r : Attr) (k : Nat) : hasFlag r (2 ^ k) = r.testBit k := by
  unfold hasFlag
  rw [Nat.and_two_pow]
  cases h : r.testBit k
  · simp [(Nat.two_pow_pos k).ne]
  · simp

/-- Querying a single-bit mask distributes over the union of two registers. -/
lemma hasFlag_or_two_pow (a b : Attr) (k : Nat) :
    hasFlag (attrOr a b) (2 ^ k) = (hasFlag a (2 ^ k) || hasFlag b (2 ^ k)) := by
  simp [hasFlag_two_pow, attrOr]

/-- Every mask in the enum catalog is zero or a single bit below position 32. -/
lemma enumAttrMasks_pow :
    ∀ f ∈ enumAttrMasks, f = 0 ∨ f ∈ (List.range 32).map (fun k => 2 ^ k) := by
  decide

/-- Bits outside the written flag's mask are untouched by attrSetter. -/
lemma attrSetter_testBit_eq (r f : Attr) (b : Bool) (i : Nat)
    (hr : r < 2 ^ 32) (hi : f.testBit i = false) :
    (attrSetter r b f).testBit i = r.testBit i := by
  cases b
  · simp only [attrSetter, if_neg (by simp : ¬ (false = true))]
    simp only [Nat.testBit_and, Nat.testBit_xor, attrWordMask,
      Nat.testBit_two_pow_sub_one, hi, Bool.xor_false]
    rcases Nat.lt_or_ge i 32 with h32 | h32
    · simp [h32]
    · have hri : r.testBit i = false :=
        Nat.testBit_lt_two_pow
          (lt_of_lt_of_le hr (Nat.pow_le_pow_right (by norm_num) h32))
      simp [hri]
  · simp [attrSetter, hi]

/-- Writing the sentinel bit with attrSetter leaves the AND with any mask below
bit 31 unchanged. -/
lemma attrSetter_sentinel_and (r f : Attr) (b : Bool)
    (hr : r < 2 ^ 32) (hf : f < 2 ^ 31) :
    attrSetter r b AttrUnusedMaxAttr &&& f = r &&& f := by
  apply Nat.eq_of_testBit_eq
  intro i
  simp only [Nat.testBit_and]
  rcases Nat.lt_or_ge i 31 with h31 | h31
  · have hs : AttrUnusedMaxAttr.testBit i = false := by
      have h : AttrUnusedMaxAttr = 2 ^ 31 := by decide
      rw [h, Nat.testBit_two_pow]
      simp [Nat.ne_of_gt h31]
    rw [attrSetter_testBit_eq r AttrUnusedMaxAttr b i hr hs]
  · have hfi : f.testBit i = false :=
      Nat.testBit_lt_two_pow
        (lt_of_lt_of_le hf (Nat.pow_le_pow_right (by norm_num) h31))
    simp [hfi]

/-- Every defined flag other than the sentinel lies below bit 31. -/
lemma definedFlags_lt :
    ∀ f ∈ definedFlags, f ≠ AttrUnusedMaxAttr → f < 2 ^ 31 := by
  decide

/-- C1: attrToVisibilityStr decodes in the fixed priority order
Private then Protected then Public: for every register, if the AttrPrivate bit
is set the result is "private"; otherwise if the AttrProtected bit is set the
result is "protected"; otherwise (including when no visibility bit is set) the
result is "public". -/
theorem attrToVisibilityStr_priority (r : Attr) :
    attrToVisibilityStr r =
      if hasFlag r AttrPrivate then "private"
      else if hasFlag r AttrProtected then "protected"
      else "public" := by
  have hp : hasFlag r AttrPrivate = r.testBit 3 := by
    rw [show AttrPrivate = 2 ^ 3 by decide, hasFlag_two_pow]
  have hq : hasFlag r AttrProtected = r.testBit 2 := by
    rw [show AttrProtected = 2 ^ 2 by decide, hasFlag_two_pow]
  have ha : r &&& AttrPrivate = (r.testBit 3).toNat * 2 ^ 3 := by
    rw [show AttrPrivate = 2 ^ 3 by decide, Nat.and_two_pow]
  have hb : r &&& AttrProtected = (r.testBit 2).toNat * 2 ^ 2 := by
    rw [show AttrProtected = 2 ^ 2 by decide, Nat.and_two_pow]
  cases h3 : r.testBit 3 <;> cases h2 : r.testBit 2 <;>
    simp [attrToVisibilityStr, hp, hq, ha, hb, h3, h2]

/-- C4: intra-kind disjointness: within each of the three applicability
columns of the catalog (class, property, method), the masks of any two
distinct flag rows have empty intersection. -/
theorem intra_kind_disjoint :
    classAttrs.Pairwise (fun a b => a &&& b = 0) ∧
    propertyAttrs.Pairwise (fun a b => a &&& b = 0) ∧
    methodAttrs.Pairwise (fun a b => a &&& b = 0) := by
  decide

/-- C9: attrSetter is idempotent: applying it twice with the same boolean
gives the same register as applying it once, both for setting and clearing. -/
theorem attrSetter_idem (r f : Attr) :
    attrSetter (attrSetter r true f) true f = attrSetter r true f ∧
    attrSetter (attrSetter r false f) false f = attrSetter r false f := by
  constructor
  · simp [attrSetter, Nat.or_assoc]
  · simp [attrSetter, Nat.and_assoc]

/-- C10: AttrNone is the identity of combination: union with the empty
register on either side, and accumulation of the empty register, all leave
the register unchanged. -/
theorem attrNone_identity (r : Attr) :
    attrOr r AttrNone = r ∧ attrOr AttrNone r = r ∧ attrOrAssign r AttrNone = r := by
  simp [attrOr, attrOrAssign, AttrNone]

/-- C8: end-to-end example: starting from AttrNone, setting AttrPrivate and
then AttrStatic yields a register that has AttrPrivate, lacks AttrPublic,
decodes to "private", and has AttrStatic. -/
theorem end_to_end_example :
    hasFlag (attrSetter (attrSetter AttrNone true AttrPrivate) true AttrStatic)
      AttrPrivate = true ∧
    hasFlag (attrSetter (attrSetter AttrNone true AttrPrivate) true AttrStatic)
      AttrPublic = false ∧
    attrToVisibilityStr
      (attrSetter (attrSetter AttrNone true AttrPrivate) true AttrStatic) =
      "private" ∧
    hasFlag (attrSetter (attrSetter AttrNone true AttrPrivate) true AttrStatic)
      AttrStatic = true := by
  refine ⟨by decide, by decide, ?_, by decide⟩
  rfl

/-- C2 counterexample: for the multi-bit mask VisibilityAttrs the claimed
equality fails: with a = AttrPublic and b = AttrProtected|AttrPrivate, the
union has all three visibility bits, so hasFlag of the union is true while
both disjuncts are false. -/
theorem union_correctness_cex :
    hasFlag (attrOr AttrPublic (attrOr AttrProtected AttrPrivate))
        VisibilityAttrs ≠
      (hasFlag AttrPublic VisibilityAttrs ||
        hasFlag (attrOr AttrProtected AttrPrivate) VisibilityAttrs) := by
  decide

/-- C2 amended: the equality hasFlag(combine(a, b), f) =
hasFlag(a, f) || hasFlag(b, f) holds for every named flag constant of the
enum catalog (each a single-bit mask or zero), but not for the multi-bit
VisibilityAttrs mask; for an arbitrary flag only the forward direction
survives: a register that has the flag keeps it in any union. -/
theorem union_correctness_amended :
    (∀ f ∈ enumAttrMasks, ∀ a b : Attr,
        hasFlag (attrOr a b) f = (hasFlag a f || hasFlag b f)) ∧
    (∀ f a b : Attr, hasFlag a f = true → hasFlag (attrOr a b) f = true) := by
  constructor
  · intro f hf a b
    rcases enumAttrMasks_pow f hf with h0 | hmem
    · subst h0
      simp [hasFlag, attrOr]
    · rcases List.mem_map.mp hmem with ⟨k, _, hk⟩
      subst hk
      exact hasFlag_or_two_pow a b k
  · intro f a b h
    have h' : a &&& f = f := by simpa [hasFlag] using h
    have hu : attrOr a b &&& f = f := by
      apply Nat.eq_of_testBit_eq
      intro i
      have hb := congrArg (fun x => x.testBit i) h'
      simp only [Nat.testBit_and] at hb
      simp only [attrOr, Nat.testBit_and, Nat.testBit_or]
      cases hfi : f.testBit i <;> cases hai : a.testBit i <;>
        simp [hfi, hai] at hb ⊢
    simpa [hasFlag] using hu

/-- Witness for the amended C2 at f = AttrPublic, a = 2, b = 4. -/
theorem union_correctness_amended_w :
    hasFlag (attrOr 2 4) AttrPublic = (hasFlag 2 AttrPublic || hasFlag 4 AttrPublic) :=
  union_correctness_amended.1 AttrPublic (by decide) 2 4

/-- C3 counterexample: AttrNone is listed for every kind, but clearing it and
querying it yields true, not false: hasFlag is identically true on the empty
mask, since (r AND 0) == 0. -/
theorem round_trip_cex :
    hasFlag (attrSetter AttrNone false AttrNone) AttrNone = true := by
  decide

/-- C3 amended: for every catalog flag other than AttrNone, setting the flag
makes hasFlag report true and clearing it makes hasFlag report false, on any
register; for AttrNone the set half still holds but hasFlag is identically
true, so the clear half fails. -/
theorem round_trip_amended :
    ∀ f ∈ enumAttrMasks, f ≠ AttrNone → ∀ r : Attr,
      hasFlag (attrSetter r true f) f = true ∧
      hasFlag (attrSetter r false f) f = false := by
  intro f hf hne r
  rcases enumAttrMasks_pow f hf with h0 | hmem
  · exact absurd h0 (by simpa [AttrNone] using hne)
  · rcases List.mem_map.mp hmem with ⟨k, hkr, hk⟩
    have hk32 : k < 32 := List.mem_range.mp hkr
    subst hk
    constructor
    · rw [show attrSetter r true (2 ^ k) = r ||| 2 ^ k from rfl, hasFlag_two_pow]
      simp
    · rw [show attrSetter r false (2 ^ k) = r &&& (attrWordMask ^^^ 2 ^ k) from rfl,
        hasFlag_two_pow]
      have hM : attrWordMask.testBit k = true := by
        rw [show attrWordMask = 2 ^ 32 - 1 from rfl, Nat.testBit_two_pow_sub_one]
        simp [hk32]
      simp [Nat.testBit_and, Nat.testBit_xor, hM]

/-- Witness for the amended C3 at f = AttrPublic, r = 0. -/
theorem round_trip_amended_w :
    hasFlag (attrSetter 0 true AttrPublic) AttrPublic = true ∧
    hasFlag (attrSetter 0 false AttrPublic) AttrPublic = false :=
  round_trip_amended AttrPublic (by decide) (by decide) 0

/-- C5 counterexample: AttrVariadicParam is an active method flag distinct
from the sentinel, yet its mask (bit 28) does not lie within bit positions 0
through 27. -/
theorem width_budget_cex :
    AttrVariadicParam ∈ methodAttrs ∧ AttrVariadicParam ≠ AttrUnusedMaxAttr ∧
    ¬ AttrVariadicParam < 2 ^ 28 := by
  decide

/-- C5 amended: every catalog flag other than the sentinel AttrUnusedMaxAttr
occupies bit positions within the low 31 bits (positions 0 through 30); the
28-bit budget of the claim is exceeded by AttrVariadicParam (bit 28),
AttrProvenanceSkipFrame (bit 29) and AttrEnumClass (bit 30), as the source's
own TODO comment records. -/
theorem width_budget_amended :
    ∀ f ∈ enumAttrMasks, f ≠ AttrUnusedMaxAttr → f < 2 ^ 31 := by
  decide

/-- Witness for the amended C5 at f = AttrVariadicParam. -/
theorem width_budget_amended_w : AttrVariadicParam < 2 ^ 31 :=
  width_budget_amended AttrVariadicParam (by decide) (by decide)

/-- C6: attrSetter computes the OR with the flag when enabled and the AND
with the 32-bit complement of the flag when disabled, and consequently every
bit position outside the flag's mask is unchanged. -/
theorem attrSetter_spec (r f : Attr) (b : Bool) (i : Nat)
    (hr : r < 2 ^ 32) (hi : f.testBit i = false) :
    attrSetter r true f = r ||| f ∧
    attrSetter r false f = r &&& (attrWordMask ^^^ f) ∧
    (attrSetter r b f).testBit i = r.testBit i :=
  ⟨rfl, rfl, attrSetter_testBit_eq r f b i hr hi⟩

/-- Witness for C6 at r = 5, f = 2, b = false, i = 0. -/
theorem attrSetter_spec_w :
    (attrSetter 5 false 2).testBit 0 = (5 : Attr).testBit 0 :=
  (attrSetter_spec 5 2 false 0 (by decide) (by decide)).2.2

/-- C7: writing the sentinel bit is inert: setting or clearing
AttrUnusedMaxAttr on a register changes neither hasFlag for any defined flag
other than the sentinel nor the decoded visibility string. -/
theorem sentinel_inert (r f : Attr) (b : Bool)
    (hr : r < 2 ^ 32) (hf : f ∈ definedFlags) (hne : f ≠ AttrUnusedMaxAttr) :
    hasFlag (attrSetter r b AttrUnusedMaxAttr) f = hasFlag r f ∧
    attrToVisibilityStr (attrSetter r b AttrUnusedMaxAttr) =
      attrToVisibilityStr r := by
  have hf31 : f < 2 ^ 31 := definedFlags_lt f hf hne
  constructor
  · unfold hasFlag
    rw [attrSetter_sentinel_and r f b hr hf31]
  · unfold attrToVisibilityStr
    rw [attrSetter_sentinel_and r AttrPrivate b hr (by decide),
      attrSetter_sentinel_and r AttrProtected b hr (by decide)]

/-- Witness for C7 at r = 8, f = AttrPrivate, b = true. -/
theorem sentinel_inert_w :
    hasFlag (attrSetter 8 true AttrUnusedMaxAttr) AttrPrivate =
      hasFlag 8 AttrPrivate :=
  (sentinel_inert 8 AttrPrivate true (by decide) (by decide) (by decide)).1

end HPHP
